import Mathlib

/-!
Formal model of the trade repository's polling-and-broadcast core.

The definitions below are shallow embeddings of the TypeScript source:
the candle and trend stores (`CandleModel.create`, `TrendModel.upsert`,
backed by `ON CONFLICT` upserts over the unique keys declared in
`database/schema.sql` and `database/migrations/001_add_trends_table.sql`),
the polling service (`PollingService.fetchSymbolData`,
`PollingService.calculateAndStoreTrend`, `PollingService.broadcastCandle`,
tick handling and `PollingService.triggerPoll`), the Yahoo price-source
adapter (`normalizeSymbolForYahoo`, `getDisplaySymbol`,
`YahooFinanceService` response mapping) and the websocket subscribe and
unsubscribe handlers (`WebSocketService.handleSubscribe`,
`WebSocketService.handleUnsubscribe`).

External collaborators (the HTTP provider, the Python trend service, the
database driver and Socket.IO) are modelled as oracles in an environment
record; time is modelled as integer milliseconds since the epoch, exactly
the unit `Date.now()` uses.
-/

namespace Trade

/-! String primitives.  Lean core's position-based `String` functions do
not reduce inside the kernel, so the JS string operations the source
uses are modelled over the underlying character list; each helper is
extensionally the core function of the same meaning. -/

/-- Whether the first list is a leading segment of the second. -/
def listStartsWith : List Char → List Char → Bool
  | [], _ => true
  | _ :: _, [] => false
  | p :: ps, c :: cs => p == c && listStartsWith ps cs

/-- JS `String.endsWith`. -/
def strEndsWith (s pat : String) : Bool :=
  listStartsWith pat.data.reverse s.data.reverse

/-- JS `String.toUpperCase` (ASCII, which covers every symbol here). -/
def strUpper (s : String) : String := String.mk (s.data.map Char.toUpper)

/-- JS `String.substring(0, n)`. -/
def strTake (s : String) (n : Nat) : String := String.mk (s.data.take n)

/-- JS `String.substring(n)`. -/
def strDrop (s : String) (n : Nat) : String := String.mk (s.data.drop n)

/-- JS `String.length`. -/
def strLength (s : String) : Nat := s.data.length

/-- Timeframe enum from `src/types`: the full fixed token set. -/
inductive Timeframe
  | m1 | m2 | m5 | m10 | m15 | m30 | h1 | h2 | d1
deriving DecidableEq

/-- Trend direction, `'up' | 'down'` in the source. -/
inductive Direction
  | up | down
deriving DecidableEq

/-- Reliability tier, `'low' | 'medium' | 'high'` in the source. -/
inductive Reliability
  | low | medium | high
deriving DecidableEq

/-- One OHLCV candle.  Prices and volume are opaque integer carriers;
volume may be null in the source (Yahoo volume nulls are not filtered),
hence `Option`. -/
structure Candle where
  symbol : String
  timeframe : Timeframe
  timestamp : Int
  open_ : Int
  high : Int
  low : Int
  close : Int
  volume : Option Int
deriving DecidableEq

/-- The unique key of the `candles` table: `UNIQUE(symbol, timeframe, timestamp)`. -/
def candleKey (c : Candle) : String × Timeframe × Int :=
  (c.symbol, c.timeframe, c.timestamp)

/-- Row matches a candle key. -/
def candleKeyMatch (k : String × Timeframe × Int) (r : Candle) : Bool :=
  decide (r.symbol = k.1 ∧ r.timeframe = k.2.1 ∧ r.timestamp = k.2.2)

/-- Number of stored rows carrying a given candle key. -/
def candleKeyCount (store : List Candle) (k : String × Timeframe × Int) : Nat :=
  (store.filter (candleKeyMatch k)).length

/-- The candles table invariant: at most one row per key. -/
def CandleUnique (store : List Candle) : Prop :=
  ∀ k, candleKeyCount store k ≤ 1

namespace CandleModel

/-- `CandleModel.create`: `INSERT INTO candles ... ON CONFLICT
(symbol, timeframe, timestamp) DO UPDATE SET open = EXCLUDED.open, ...`.
A colliding key updates the OHLCV columns of the conflicting row,
otherwise a fresh row is appended. -/
def create (store : List Candle) (c : Candle) : List Candle :=
  if store.any (candleKeyMatch (candleKey c)) then
    store.map (fun r =>
      if candleKeyMatch (candleKey c) r then
        { r with open_ := c.open_, high := c.high, low := c.low,
                 close := c.close, volume := c.volume }
      else r)
  else store ++ [c]

end CandleModel

/-- One row of the `trends` table. -/
structure TrendRow where
  symbol : String
  timeframe : Timeframe
  trend : Direction
  reliability : Reliability
  timestamp : Int
deriving DecidableEq

/-- The unique key of the `trends` table: `UNIQUE(symbol, timeframe, reliability)`. -/
def trendKey (r : TrendRow) : String × Timeframe × Reliability :=
  (r.symbol, r.timeframe, r.reliability)

/-- Row matches a trend key. -/
def trendKeyMatch (k : String × Timeframe × Reliability) (r : TrendRow) : Bool :=
  decide (r.symbol = k.1 ∧ r.timeframe = k.2.1 ∧ r.reliability = k.2.2)

/-- Number of stored rows carrying a given trend key. -/
def trendKeyCount (store : List TrendRow) (k : String × Timeframe × Reliability) : Nat :=
  (store.filter (trendKeyMatch k)).length

/-- The trends table invariant: at most one row per key. -/
def TrendUnique (store : List TrendRow) : Prop :=
  ∀ k, trendKeyCount store k ≤ 1

namespace TrendModel

/-- `TrendModel.upsert`: `INSERT INTO trends ... ON CONFLICT
(symbol, timeframe, reliability) DO UPDATE SET trend = EXCLUDED.trend,
timestamp = EXCLUDED.timestamp`.  A colliding key overwrites direction
and timestamp, otherwise a fresh row is appended. -/
def upsert (store : List TrendRow) (symbol : String) (timeframe : Timeframe)
    (trend : Direction) (reliability : Reliability) (timestamp : Int) : List TrendRow :=
  if store.any (trendKeyMatch (symbol, timeframe, reliability)) then
    store.map (fun r =>
      if trendKeyMatch (symbol, timeframe, reliability) r then
        { r with trend := trend, timestamp := timestamp }
      else r)
  else
    store ++ [{ symbol := symbol, timeframe := timeframe, trend := trend,
                reliability := reliability, timestamp := timestamp }]

end TrendModel

/-- Arguments of one `TrendModel.upsert` call. -/
structure TrendWrite where
  symbol : String
  timeframe : Timeframe
  trend : Direction
  reliability : Reliability
  timestamp : Int
deriving DecidableEq

/-- Apply one recorded write to a trend store. -/
def applyTrendWrite (store : List TrendRow) (w : TrendWrite) : List TrendRow :=
  TrendModel.upsert store w.symbol w.timeframe w.trend w.reliability w.timestamp

/-- Key of a recorded write. -/
def trendWriteKey (w : TrendWrite) : String × Timeframe × Reliability :=
  (w.symbol, w.timeframe, w.reliability)

/-- Result of the external trend-service call (`PythonCalculationService.calculateTrend`):
`{trend, timestamp}` as consumed by the poller. -/
structure TrendData where
  trend : Direction
  timestamp : Int
deriving DecidableEq

/-- Delivery channel of one Socket.IO emission: `io.emit` reaches every
connected client (global), `io.to(room).emit` reaches one broadcast room. -/
inductive Channel
  | global
  | room (name : String)
deriving DecidableEq

/-- Observable side effects of one poll cycle: provider fetch attempts,
trend-service calls, and published events with their payloads. -/
inductive Effect
  | providerFetch (symbol : String) (tf : Timeframe)
  | trendServiceCall (symbol : String) (tf : Timeframe) (reliability : Reliability)
  | candleUpdate (ch : Channel) (symbol : String) (tf : Timeframe) (candle : Candle)
  | trendUpdate (ch : Channel) (symbol : String) (tf : Timeframe) (trend : Direction)
deriving DecidableEq

/-- Selector for candle-update emissions. -/
def isCandleUpdate : Effect → Bool
  | .candleUpdate .. => true
  | _ => false

/-- Selector for trend-service calls. -/
def isTrendCall : Effect → Bool
  | .trendServiceCall .. => true
  | _ => false

/-- Mutable state of the static `PollingService` class plus the two
database tables it writes. -/
structure PollState where
  candles : List Candle
  trends : List TrendRow
  lastFetchTime : List (String × Int)
  isPolling : Bool
  cronActive : Bool
deriving DecidableEq

/-- Environment oracles for one poll cycle: the watchlist read, the
provider (`YahooFinanceService.getHistoricalData`, `.error` models a
thrown exception), whether each candle persistence call succeeds, the
Python trend service (`.error` models timeout or non-success), whether
each trend persistence call succeeds, and whether Socket.IO was
initialized via `PollingService.init`. -/
structure PollEnv where
  watchlist : List String
  fetchResult : String → Timeframe → Except Unit (List Candle)
  candlePersistOk : String → Timeframe → Bool
  trendResult : String → Timeframe → List Candle → Except Unit TrendData
  trendPersistOk : String → Timeframe → Bool
  ioInit : Bool

namespace PollingService

/-- `MIN_FETCH_INTERVAL = 5000`, milliseconds. -/
def MIN_FETCH_INTERVAL : Int := 5000

/-- The five timeframes the poller tracks for recurring updates. -/
def pollTimeframes : List Timeframe :=
  [.m1, .m5, .m15, .h1, .d1]

/-- `PollingService.broadcastCandle`: when Socket.IO is initialized, emit
`candle:update` with payload `{symbol, timeframe, candle}` once on
`io.emit` (all clients) and once on `io.to('symbol:' + symbol)`; when it
is not, warn and emit nothing. -/
def broadcastCandle (ioInit : Bool) (symbol : String) (tf : Timeframe)
    (candle : Candle) : List Effect :=
  if ioInit then
    [.candleUpdate .global symbol tf candle,
     .candleUpdate (.room ("symbol:" ++ symbol)) symbol tf candle]
  else []

/-- `PollingService.broadcastTrend`: `trend:update` on the global channel
and on the per-symbol room (the wall-clock timestamp field of the payload
is not modelled). -/
def broadcastTrend (ioInit : Bool) (symbol : String) (tf : Timeframe)
    (trend : Direction) : List Effect :=
  if ioInit then
    [.trendUpdate .global symbol tf trend,
     .trendUpdate (.room ("symbol:" ++ symbol)) symbol tf trend]
  else []

/-- `PollingService.calculateAndStoreTrend`: below 20 candles return at
once; otherwise call the Python service with reliability `'low'`, and on
success upsert the trend row and broadcast `trend:update`.  Every failure
(service call or persistence) is caught and leaves state untouched. -/
def calculateAndStoreTrend (env : PollEnv) (symbol : String) (tf : Timeframe)
    (candles : List Candle) (st : PollState) : PollState × List Effect :=
  if candles.length < 20 then (st, [])
  else
    match env.trendResult symbol tf candles with
    | .error _ => (st, [.trendServiceCall symbol tf .low])
    | .ok td =>
      if env.trendPersistOk symbol tf then
        ({ st with trends := TrendModel.upsert st.trends symbol tf td.trend .low td.timestamp },
         .trendServiceCall symbol tf .low :: broadcastTrend env.ioInit symbol tf td.trend)
      else (st, [.trendServiceCall symbol tf .low])

/-- One iteration of the per-timeframe loop of `fetchSymbolData`: fetch
the series up to now; an exception or an empty series skips the
timeframe; otherwise upsert the chronologically last candle, broadcast
it, and run the trend step.  A persistence exception is caught and skips
broadcast and trend step. -/
def processTimeframe (env : PollEnv) (symbol : String) (st : PollState)
    (tf : Timeframe) : PollState × List Effect :=
  match env.fetchResult symbol tf with
  | .error _ => (st, [.providerFetch symbol tf])
  | .ok [] => (st, [.providerFetch symbol tf])
  | .ok (c :: cs) =>
    if env.candlePersistOk symbol tf then
      let latest := (c :: cs).getLast (List.cons_ne_nil c cs)
      let st1 := { st with candles := CandleModel.create st.candles latest }
      let res := calculateAndStoreTrend env symbol tf (c :: cs) st1
      (res.1, .providerFetch symbol tf ::
        (broadcastCandle env.ioInit symbol tf latest ++ res.2))
    else (st, [.providerFetch symbol tf])

/-- Sequential `for (const timeframe of timeframes)` loop body of
`fetchSymbolData`. -/
def runTimeframes (env : PollEnv) (symbol : String) (st : PollState) :
    List Timeframe → PollState × List Effect
  | [] => (st, [])
  | tf :: rest =>
    ((runTimeframes env symbol (processTimeframe env symbol st tf).1 rest).1,
     (processTimeframe env symbol st tf).2 ++
       (runTimeframes env symbol (processTimeframe env symbol st tf).1 rest).2)

/-- `PollingService.fetchSymbolData`: the rate-limit gate compares `now`
against the recorded last fetch (`lastFetchTime.get(symbol) || 0`); below
`MIN_FETCH_INTERVAL` the symbol is skipped entirely; otherwise the five
timeframes are processed and `lastFetchTime.set(symbol, now)` runs
unconditionally afterwards. -/
def fetchSymbolData (env : PollEnv) (now : Int) (symbol : String)
    (st : PollState) : PollState × List Effect :=
  if now - ((st.lastFetchTime.lookup symbol).getD 0) < MIN_FETCH_INTERVAL then
    (st, [])
  else
    ({ (runTimeframes env symbol st pollTimeframes).1 with
        lastFetchTime :=
          (symbol, now) :: (runTimeframes env symbol st pollTimeframes).1.lastFetchTime },
     (runTimeframes env symbol st pollTimeframes).2)

/-- `PollingService.pollMarketData`: an empty watchlist ends the tick at
once; otherwise every symbol is fetched (the concurrent
`Promise.allSettled` round is modelled as a sequential fold, which is an
admissible interleaving since each task writes only its own map entry). -/
def pollMarketData (env : PollEnv) (now : Int) (st : PollState) :
    PollState × List Effect :=
  if env.watchlist.isEmpty then (st, [])
  else
    env.watchlist.foldl
      (fun acc s =>
        ((fetchSymbolData env now s acc.1).1,
         acc.2 ++ (fetchSymbolData env now s acc.1).2))
      (st, [])

/-- The cron callback installed by `PollingService.start`: a tick firing
while `isPolling` is set logs and returns; otherwise it sets the flag,
runs the cycle, and clears the flag in a `finally`. -/
def tickFire (env : PollEnv) (now : Int) (st : PollState) :
    PollState × List Effect :=
  if st.isPolling then (st, [])
  else
    ({ (pollMarketData env now { st with isPolling := true }).1 with isPolling := false },
     (pollMarketData env now { st with isPolling := true }).2)

/-- `PollingService.triggerPoll`: the manual trigger calls
`pollMarketData` directly — it neither checks nor sets `isPolling`. -/
def triggerPoll (env : PollEnv) (now : Int) (st : PollState) :
    PollState × List Effect :=
  pollMarketData env now st

end PollingService

/-- Payload of a subscribe or unsubscribe request:
`{ symbols?: string[], symbol?: string }`. -/
structure WsPayload where
  symbols : Option (List String)
  symbol : Option String
deriving DecidableEq

/-- `const symbols = data.symbols || (data.symbol ? [data.symbol] : [])`.
JS truthiness: a present array is used even when empty; an empty string
is falsy and falls through to the empty list. -/
def extractSymbols (data : WsPayload) : List String :=
  match data.symbols with
  | some l => l
  | none =>
    match data.symbol with
    | some s => if strLength s == 0 then [] else [s]
    | none => []

/-- Events a handler emits back on the requesting socket, plus room
membership changes. -/
inductive WsEmission
  | errorMsg (message : String)
  | subscribed (symbols : List String) (subscriptions : List String)
  | unsubscribed (symbols : List String) (subscriptions : List String)
  | joined (room : String)
  | leftRoom (room : String)
  | initialSync (symbol : String)
deriving DecidableEq

/-- Whether an emission list contains an error event. -/
def hasError (l : List WsEmission) : Bool :=
  l.any (fun e => match e with | .errorMsg _ => true | _ => false)

/-- JS `Set.add` preserving insertion order. -/
def setAdd (l : List String) (s : String) : List String :=
  if l.contains s then l else l ++ [s]

/-- JS `Set.delete`. -/
def setRemove (l : List String) (s : String) : List String :=
  l.filter (fun x => x != s)

namespace WebSocketService

/-- `WebSocketService.handleSubscribe` for a registered connection: an
empty symbol list answers `error` and changes nothing; otherwise each
symbol is uppercased, added to the connection's set and its room joined,
a `subscribed` reply is sent, then an initial-sync push runs per symbol. -/
def handleSubscribe (subs : List String) (data : WsPayload) :
    List String × List WsEmission :=
  let symbols := extractSymbols data
  if symbols.isEmpty then (subs, [.errorMsg "No symbols provided"])
  else
    let newSubs := symbols.foldl (fun acc s => setAdd acc (strUpper s)) subs
    (newSubs,
     symbols.map (fun s => WsEmission.joined ("symbol:" ++ strUpper s))
       ++ [.subscribed symbols newSubs]
       ++ symbols.map (fun s => WsEmission.initialSync (strUpper s)))

/-- `WebSocketService.handleUnsubscribe` for a registered connection:
each listed symbol is uppercased, removed and its room left, then an
`unsubscribed` reply is sent.  There is no emptiness check. -/
def handleUnsubscribe (subs : List String) (data : WsPayload) :
    List String × List WsEmission :=
  let symbols := extractSymbols data
  let newSubs := symbols.foldl (fun acc s => setRemove acc (strUpper s)) subs
  (newSubs,
   symbols.map (fun s => WsEmission.leftRoom ("symbol:" ++ strUpper s))
     ++ [.unsubscribed symbols newSubs])

end WebSocketService

/-- `CURRENCY_CODES` from the Yahoo adapter. -/
def CURRENCY_CODES : List String :=
  ["USD", "EUR", "JPY", "GBP", "AUD", "CAD", "CHF", "CNY", "SEK", "NZD",
   "MXN", "SGD", "HKD", "NOK", "KRW", "TRY", "RUB", "INR", "BRL", "ZAR"]

/-- `isLikelyForexPair`: an `=X`-suffixed symbol, or six characters whose
two uppercased halves are both recognized currency codes. -/
def isLikelyForexPair (symbol : String) : Bool :=
  if strEndsWith symbol "=X" then true
  else if strLength symbol == 6 then
    (CURRENCY_CODES.contains (strUpper (strTake symbol 3))
      && CURRENCY_CODES.contains (strUpper (strTake (strDrop symbol 3) 3)))
  else false

/-- `normalizeSymbolForYahoo`: the provider-call symbol — already
suffixed symbols pass through uppercased, detected forex pairs get the
`=X` suffix, everything else is uppercased unchanged. -/
def normalizeSymbolForYahoo (symbol : String) : String :=
  if strEndsWith symbol "=X" then strUpper symbol
  else if isLikelyForexPair symbol then strUpper symbol ++ "=X"
  else strUpper symbol

/-- Character-level worker for `replaceFirst`. -/
def replaceFirstChars (pat repl : List Char) : List Char → List Char
  | [] => []
  | c :: cs =>
    if listStartsWith pat (c :: cs) then repl ++ (c :: cs).drop pat.length
    else c :: replaceFirstChars pat repl cs

/-- JS `String.replace` with a string pattern: replace the first
occurrence only. -/
def replaceFirst (s pat repl : String) : String :=
  String.mk (replaceFirstChars pat.data repl.data s.data)

/-- `getDisplaySymbol`: `symbol.replace('=X', '')`. -/
def getDisplaySymbol (symbol : String) : String :=
  replaceFirst symbol "=X" ""

/-- One bar of the provider chart response; Yahoo may return nulls in any
field of the parallel quote arrays. -/
structure ProviderBar where
  ts : Int
  open_ : Option Int
  high : Option Int
  low : Option Int
  close : Option Int
  volume : Option Int
deriving DecidableEq

namespace YahooFinanceService

/-- Response mapping of `YahooFinanceService.getHistoricalData`: each bar
becomes a candle stamped with the uppercased display symbol (the `=X`
suffix of the request symbol is stripped before storage); bars with a
null OHLC field are dropped, volume nulls pass through.  The provider
call itself is issued for `normalizeSymbolForYahoo symbol`. -/
def getHistoricalCandles (symbol : String) (tf : Timeframe)
    (bars : List ProviderBar) : List Candle :=
  bars.filterMap (fun b =>
    match b.open_, b.high, b.low, b.close with
    | some o, some hi, some lo, some cl =>
      some { symbol := strUpper (getDisplaySymbol symbol), timeframe := tf,
             timestamp := b.ts, open_ := o, high := hi, low := lo,
             close := cl, volume := b.volume }
    | _, _, _, _ => none)

end YahooFinanceService

/-! Concrete fixtures used by witnesses and counterexamples. -/

/-- A sample candle with a fixed key. -/
def candleA : Candle :=
  { symbol := "AAPL", timeframe := .m1, timestamp := 60,
    open_ := 10, high := 12, low := 9, close := 11, volume := some 100 }

/-- A colliding write: same key as `candleA`, different OHLCV. -/
def candleA2 : Candle :=
  { symbol := "AAPL", timeframe := .m1, timestamp := 60,
    open_ := 20, high := 22, low := 19, close := 21, volume := some 200 }

/-- A write with a different key. -/
def candleB : Candle :=
  { symbol := "MSFT", timeframe := .m5, timestamp := 300,
    open_ := 5, high := 6, low := 4, close := 5, volume := none }

/-- A sample trend write. -/
def trendW1 : TrendWrite :=
  { symbol := "AAPL", timeframe := .m1, trend := .up,
    reliability := .low, timestamp := 60 }

/-- A colliding trend write: same key as `trendW1`, new direction and
timestamp. -/
def trendW2 : TrendWrite :=
  { symbol := "AAPL", timeframe := .m1, trend := .down,
    reliability := .low, timestamp := 120 }

/-- An initial poll state: empty stores, no stamps, not polling. -/
def stIdle : PollState :=
  { candles := [], trends := [], lastFetchTime := [],
    isPolling := false, cronActive := true }

/-- A poll state captured while a cycle is in flight. -/
def stPolling : PollState :=
  { candles := [], trends := [], lastFetchTime := [],
    isPolling := true, cronActive := true }

/-- A poll state whose symbol was stamped recently. -/
def stRecent : PollState :=
  { candles := [], trends := [], lastFetchTime := [("AAPL", 100)],
    isPolling := false, cronActive := true }

/-- Environment where every provider fetch returns an empty series. -/
def envEmptyData : PollEnv :=
  { watchlist := ["AAPL"]
    fetchResult := fun _ _ => .ok []
    candlePersistOk := fun _ _ => true
    trendResult := fun _ _ _ => .error ()
    trendPersistOk := fun _ _ => true
    ioInit := true }

/-- Environment where every provider fetch throws. -/
def envAllFail : PollEnv :=
  { watchlist := ["AAPL"]
    fetchResult := fun _ _ => .error ()
    candlePersistOk := fun _ _ => false
    trendResult := fun _ _ _ => .error ()
    trendPersistOk := fun _ _ => false
    ioInit := true }

/-- A 20-element candle series (meets the low-reliability minimum). -/
def series20 : List Candle := List.replicate 20 candleA

/-- An 18-element candle series (below the minimum). -/
def series18 : List Candle := List.replicate 18 candleA

/-- Environment whose fetches return 20 candles and whose trend service
answers `{trend: up, timestamp: 42}`. -/
def envSeries20 : PollEnv :=
  { watchlist := ["AAPL"]
    fetchResult := fun _ _ => .ok series20
    candlePersistOk := fun _ _ => true
    trendResult := fun _ _ _ => .ok { trend := .up, timestamp := 42 }
    trendPersistOk := fun _ _ => true
    ioInit := true }

/-- Environment whose fetches return 18 candles. -/
def envSeries18 : PollEnv :=
  { watchlist := ["AAPL"]
    fetchResult := fun _ _ => .ok series18
    candlePersistOk := fun _ _ => true
    trendResult := fun _ _ _ => .ok { trend := .up, timestamp := 42 }
    trendPersistOk := fun _ _ => true
    ioInit := true }

/-- A malformed subscribe or unsubscribe payload: no symbol list at all. -/
def emptyPayload : WsPayload := { symbols := none, symbol := none }

/-- A provider bar with no nulls. -/
def barFull : ProviderBar :=
  { ts := 60, open_ := some 1, high := some 2, low := some 1,
    close := some 2, volume := some 5 }

/-- The candle `barFull` maps to for request symbol "USDJPY". -/
def candleFromBarFull : Candle :=
  { symbol := "USDJPY", timeframe := .m1, timestamp := 60,
    open_ := 1, high := 2, low := 1, close := 2, volume := some 5 }

/-! General list lemmas shared by the store proofs. -/

/-- Filtering after a map whose function leaves the predicate unchanged
is the same as mapping after the filter. -/
theorem filter_map_pred_inv {α : Type _} (p : α → Bool) (f : α → α)
    (h : ∀ a, p (f a) = p a) :
    ∀ l : List α, (l.map f).filter p = (l.filter p).map f := by
  intro l
  induction l with
  | nil => rfl
  | cons a l ih =>
    simp only [List.map_cons, List.filter_cons, h a]
    cases hpa : p a <;> simp [hpa, ih]

/-! Candle store lemmas. -/

/-- The OHLCV update inside `CandleModel.create` never changes which keys
a row matches. -/
theorem candleUpd_keyMatch (c : Candle) (k : String × Timeframe × Int) (r : Candle) :
    candleKeyMatch k
        (if candleKeyMatch (candleKey c) r then
          { r with open_ := c.open_, high := c.high, low := c.low,
                   close := c.close, volume := c.volume }
        else r)
      = candleKeyMatch k r := by
  cases h : candleKeyMatch (candleKey c) r <;> simp [h, candleKeyMatch]

/-- A store has a row under a key iff the key count is positive. -/
theorem candle_any_iff_count_pos (store : List Candle) (k : String × Timeframe × Int) :
    store.any (candleKeyMatch k) = true ↔ 1 ≤ candleKeyCount store k := by
  constructor
  · intro h
    obtain ⟨x, hx, hpx⟩ := List.any_eq_true.mp h
    exact List.length_pos_of_mem (List.mem_filter.mpr ⟨hx, hpx⟩)
  · intro h
    cases hf : store.filter (candleKeyMatch k) with
    | nil => simp [candleKeyCount, hf] at h
    | cons x xs =>
      have hx : x ∈ store.filter (candleKeyMatch k) := by
        rw [hf]; exact List.mem_cons_self x xs
      obtain ⟨hmem, hp⟩ := List.mem_filter.mp hx
      exact List.any_eq_true.mpr ⟨x, hmem, hp⟩

/-- On a colliding write, every key count is unchanged. -/
theorem candleKeyCount_create_exists (store : List Candle) (c : Candle)
    (h : store.any (candleKeyMatch (candleKey c)) = true)
    (k : String × Timeframe × Int) :
    candleKeyCount (CandleModel.create store c) k = candleKeyCount store k := by
  unfold CandleModel.create candleKeyCount
  rw [if_pos h, filter_map_pred_inv _ _ (candleUpd_keyMatch c k) store,
    List.length_map]

/-- A row matching the written candle's key, in that candle itself. -/
theorem candleKeyMatch_self (c : Candle) : candleKeyMatch (candleKey c) c = true := by
  simp [candleKeyMatch, candleKey]

/-- Only the written candle's key can match the written candle. -/
theorem candleKeyMatch_eq_key (k : String × Timeframe × Int) (c : Candle)
    (h : candleKeyMatch k c = true) : k = candleKey c := by
  obtain ⟨k1, k2, k3⟩ := k
  simp only [candleKeyMatch, decide_eq_true_eq] at h
  obtain ⟨h1, h2, h3⟩ := h
  simp [candleKey, h1, h2, h3]

/-- After any write, every row carrying the written key holds the
written OHLCV values. -/
theorem candle_create_fields (store : List Candle) (c : Candle) :
    ∀ r ∈ (CandleModel.create store c).filter (candleKeyMatch (candleKey c)),
      r.open_ = c.open_ ∧ r.high = c.high ∧ r.low = c.low
        ∧ r.close = c.close ∧ r.volume = c.volume := by
  intro r hr
  unfold CandleModel.create at hr
  by_cases hany : store.any (candleKeyMatch (candleKey c)) = true
  · rw [if_pos hany,
      filter_map_pred_inv _ _ (candleUpd_keyMatch c (candleKey c)) store] at hr
    obtain ⟨r1, hr1, hmap⟩ := List.mem_map.mp hr
    have hkm : candleKeyMatch (candleKey c) r1 = true := (List.mem_filter.mp hr1).2
    rw [if_pos hkm] at hmap
    simp [← hmap]
  · rw [if_neg hany, List.filter_append] at hr
    have hstore : store.filter (candleKeyMatch (candleKey c)) = [] := by
      refine List.filter_eq_nil_iff.mpr ?_
      intro a ha hpa
      exact hany (List.any_eq_true.mpr ⟨a, ha, hpa⟩)
    rw [hstore, List.nil_append] at hr
    simp only [List.filter_cons, candleKeyMatch_self c, if_pos] at hr
    have : r = c := by
      cases hr with
      | head => rfl
      | tail _ hmem => cases hmem
    simp [this]

/-- A colliding write never changes the total row count. -/
theorem candle_create_length_exists (store : List Candle) (c : Candle)
    (h : store.any (candleKeyMatch (candleKey c)) = true) :
    (CandleModel.create store c).length = store.length := by
  unfold CandleModel.create
  rw [if_pos h, List.length_map]

/-- One write preserves key uniqueness. -/
theorem candle_unique_create (store : List Candle) (c : Candle)
    (h : CandleUnique store) : CandleUnique (CandleModel.create store c) := by
  intro k
  by_cases hany : store.any (candleKeyMatch (candleKey c)) = true
  · rw [candleKeyCount_create_exists store c hany k]; exact h k
  · unfold CandleModel.create candleKeyCount
    rw [if_neg hany, List.filter_append, List.length_append]
    cases hkc : candleKeyMatch k c
    · simp [List.filter_cons, hkc]
      exact h k
    · have hk : k = candleKey c := candleKeyMatch_eq_key k c hkc
      subst hk
      have hzero : candleKeyCount store (candleKey c) = 0 := by
        by_contra hne
        exact hany ((candle_any_iff_count_pos store (candleKey c)).mpr
          (Nat.one_le_iff_ne_zero.mpr hne))
      unfold candleKeyCount at hzero
      simp [List.filter_cons, hkc, hzero]

/-- Any sequence of writes preserves key uniqueness. -/
theorem candle_unique_foldl (writes : List Candle) :
    ∀ store : List Candle, CandleUnique store →
      CandleUnique (writes.foldl CandleModel.create store) := by
  induction writes with
  | nil => intro store h; exact h
  | cons w ws ih =>
    intro store h
    exact ih (CandleModel.create store w) (candle_unique_create store w h)

/-! Trend store lemmas (mirror images of the candle ones). -/

/-- The direction/timestamp update inside `TrendModel.upsert` never
changes which keys a row matches. -/
theorem trendUpd_keyMatch (d : Direction) (ts : Int)
    (k0 k : String × Timeframe × Reliability) (r : TrendRow) :
    trendKeyMatch k
        (if trendKeyMatch k0 r then { r with trend := d, timestamp := ts } else r)
      = trendKeyMatch k r := by
  cases h : trendKeyMatch k0 r <;> simp [h, trendKeyMatch]

/-- A trend store has a row under a key iff the key count is positive. -/
theorem trend_any_iff_count_pos (store : List TrendRow)
    (k : String × Timeframe × Reliability) :
    store.any (trendKeyMatch k) = true ↔ 1 ≤ trendKeyCount store k := by
  constructor
  · intro h
    obtain ⟨x, hx, hpx⟩ := List.any_eq_true.mp h
    exact List.length_pos_of_mem (List.mem_filter.mpr ⟨hx, hpx⟩)
  · intro h
    cases hf : store.filter (trendKeyMatch k) with
    | nil => simp [trendKeyCount, hf] at h
    | cons x xs =>
      have hx : x ∈ store.filter (trendKeyMatch k) := by
        rw [hf]; exact List.mem_cons_self x xs
      obtain ⟨hmem, hp⟩ := List.mem_filter.mp hx
      exact List.any_eq_true.mpr ⟨x, hmem, hp⟩

/-- The freshly inserted trend row matches the written key. -/
theorem trendKeyMatch_new (s : String) (tf : Timeframe) (d : Direction)
    (rel : Reliability) (ts : Int) :
    trendKeyMatch (s, tf, rel)
      ({ symbol := s, timeframe := tf, trend := d, reliability := rel,
         timestamp := ts } : TrendRow) = true := by
  simp [trendKeyMatch]

/-- Only the written key can match the freshly inserted trend row. -/
theorem trendKeyMatch_new_eq (k : String × Timeframe × Reliability)
    (s : String) (tf : Timeframe) (d : Direction) (rel : Reliability) (ts : Int)
    (h : trendKeyMatch k
      ({ symbol := s, timeframe := tf, trend := d, reliability := rel,
         timestamp := ts } : TrendRow) = true) : k = (s, tf, rel) := by
  obtain ⟨k1, k2, k3⟩ := k
  simp only [trendKeyMatch, decide_eq_true_eq] at h
  obtain ⟨h1, h2, h3⟩ := h
  simp [h1, h2, h3]

/-- On a colliding upsert, every key count is unchanged. -/
theorem trendKeyCount_upsert_exists (store : List TrendRow) (s : String)
    (tf : Timeframe) (d : Direction) (rel : Reliability) (ts : Int)
    (h : store.any (trendKeyMatch (s, tf, rel)) = true)
    (k : String × Timeframe × Reliability) :
    trendKeyCount (TrendModel.upsert store s tf d rel ts) k
      = trendKeyCount store k := by
  unfold TrendModel.upsert trendKeyCount
  rw [if_pos h, filter_map_pred_inv _ _ (trendUpd_keyMatch d ts (s, tf, rel) k) store,
    List.length_map]

/-- An upsert never lowers a key count. -/
theorem trendKeyCount_upsert_ge (store : List TrendRow) (s : String)
    (tf : Timeframe) (d : Direction) (rel : Reliability) (ts : Int)
    (k : String × Timeframe × Reliability) :
    trendKeyCount store k ≤ trendKeyCount (TrendModel.upsert store s tf d rel ts) k := by
  by_cases h : store.any (trendKeyMatch (s, tf, rel)) = true
  · rw [trendKeyCount_upsert_exists store s tf d rel ts h k]
  · unfold TrendModel.upsert trendKeyCount
    rw [if_neg h, List.filter_append, List.length_append]
    exact Nat.le_add_right _ _

/-- After an upsert the written combination has at least one row. -/
theorem trendKeyCount_upsert_self (store : List TrendRow) (s : String)
    (tf : Timeframe) (d : Direction) (rel : Reliability) (ts : Int) :
    1 ≤ trendKeyCount (TrendModel.upsert store s tf d rel ts) (s, tf, rel) := by
  by_cases h : store.any (trendKeyMatch (s, tf, rel)) = true
  · rw [trendKeyCount_upsert_exists store s tf d rel ts h]
    exact (trend_any_iff_count_pos store (s, tf, rel)).mp h
  · unfold TrendModel.upsert trendKeyCount
    rw [if_neg h, List.filter_append, List.length_append]
    simp [List.filter_cons, trendKeyMatch_new s tf d rel ts]

/-- One upsert preserves key uniqueness. -/
theorem trend_unique_upsert (store : List TrendRow) (s : String)
    (tf : Timeframe) (d : Direction) (rel : Reliability) (ts : Int)
    (h : TrendUnique store) :
    TrendUnique (TrendModel.upsert store s tf d rel ts) := by
  intro k
  by_cases hany : store.any (trendKeyMatch (s, tf, rel)) = true
  · rw [trendKeyCount_upsert_exists store s tf d rel ts hany k]; exact h k
  · unfold TrendModel.upsert trendKeyCount
    rw [if_neg hany, List.filter_append, List.length_append]
    cases hkc : trendKeyMatch k
        ({ symbol := s, timeframe := tf, trend := d, reliability := rel,
           timestamp := ts } : TrendRow)
    · simp [List.filter_cons, hkc]
      exact h k
    · have hk : k = (s, tf, rel) := trendKeyMatch_new_eq k s tf d rel ts hkc
      subst hk
      have hzero : trendKeyCount store (s, tf, rel) = 0 := by
        by_contra hne
        exact hany ((trend_any_iff_count_pos store (s, tf, rel)).mpr
          (Nat.one_le_iff_ne_zero.mpr hne))
      unfold trendKeyCount at hzero
      simp [List.filter_cons, hkc, hzero]

/-- After any write, every row carrying the written combination holds
the written direction and timestamp. -/
theorem trend_upsert_fields (store : List TrendRow) (s : String)
    (tf : Timeframe) (d : Direction) (rel : Reliability) (ts : Int) :
    ∀ r ∈ (TrendModel.upsert store s tf d rel ts).filter (trendKeyMatch (s, tf, rel)),
      r.trend = d ∧ r.timestamp = ts := by
  intro r hr
  unfold TrendModel.upsert at hr
  by_cases hany : store.any (trendKeyMatch (s, tf, rel)) = true
  · rw [if_pos hany,
      filter_map_pred_inv _ _ (trendUpd_keyMatch d ts (s, tf, rel) (s, tf, rel)) store] at hr
    obtain ⟨r1, hr1, hmap⟩ := List.mem_map.mp hr
    have hkm : trendKeyMatch (s, tf, rel) r1 = true := (List.mem_filter.mp hr1).2
    rw [if_pos hkm] at hmap
    simp [← hmap]
  · rw [if_neg hany, List.filter_append] at hr
    have hstore : store.filter (trendKeyMatch (s, tf, rel)) = [] := by
      refine List.filter_eq_nil_iff.mpr ?_
      intro a ha hpa
      exact hany (List.any_eq_true.mpr ⟨a, ha, hpa⟩)
    rw [hstore, List.nil_append] at hr
    simp only [List.filter_cons, trendKeyMatch_new s tf d rel ts, if_pos] at hr
    have hrc : r = { symbol := s, timeframe := tf, trend := d,
                     reliability := rel, timestamp := ts } := by
      cases hr with
      | head => rfl
      | tail _ hmem => cases hmem
    simp [hrc]

/-- Any sequence of recorded writes preserves key uniqueness. -/
theorem trend_unique_foldl (writes : List TrendWrite) :
    ∀ store : List TrendRow, TrendUnique store →
      TrendUnique (writes.foldl applyTrendWrite store) := by
  induction writes with
  | nil => intro store h; exact h
  | cons w ws ih =>
    intro store h
    exact ih (applyTrendWrite store w)
      (trend_unique_upsert store w.symbol w.timeframe w.trend w.reliability
        w.timestamp h)

/-- A key count never drops across a sequence of recorded writes. -/
theorem trendKeyCount_foldl_ge (writes : List TrendWrite) :
    ∀ (store : List TrendRow) (k : String × Timeframe × Reliability),
      trendKeyCount store k ≤ trendKeyCount (writes.foldl applyTrendWrite store) k := by
  induction writes with
  | nil => intro store k; exact Nat.le_refl _
  | cons w ws ih =>
    intro store k
    exact Nat.le_trans
      (trendKeyCount_upsert_ge store w.symbol w.timeframe w.trend w.reliability
        w.timestamp k)
      (ih (applyTrendWrite store w) k)

/-- C3: for every candle store state and every write whose
(symbol, timeframe, timestamp) key already exists, `CandleModel.create`
overwrites the open/high/low/close/volume fields of the rows carrying
that key (last-write-wins) and leaves both the per-key row count and the
total row count unchanged; and starting from any store satisfying the
uniqueness invariant, the key stays unique after any sequence of writes. -/
theorem candle_create_last_write_wins :
    ∀ (store : List Candle) (c : Candle),
      (1 ≤ candleKeyCount store (candleKey c) →
        candleKeyCount (CandleModel.create store c) (candleKey c)
            = candleKeyCount store (candleKey c)
          ∧ (CandleModel.create store c).length = store.length
          ∧ ∀ r ∈ (CandleModel.create store c).filter (candleKeyMatch (candleKey c)),
              r.open_ = c.open_ ∧ r.high = c.high ∧ r.low = c.low
                ∧ r.close = c.close ∧ r.volume = c.volume)
      ∧ (CandleUnique store →
          ∀ writes : List Candle,
            CandleUnique (writes.foldl CandleModel.create store)) := by
  intro store c
  constructor
  · intro hpos
    have hany : store.any (candleKeyMatch (candleKey c)) = true :=
      (candle_any_iff_count_pos store (candleKey c)).mpr hpos
    exact ⟨candleKeyCount_create_exists store c hany (candleKey c),
      candle_create_length_exists store c hany,
      candle_create_fields store c⟩
  · intro huniq writes
    exact candle_unique_foldl writes store huniq

/-- Witness for C3 at a concrete collision (`candleA2` overwrites
`candleA`) and a concrete write sequence from the empty store. -/
theorem candle_create_last_write_wins_witness :
    (1 ≤ candleKeyCount [candleA] (candleKey candleA2)
      ∧ candleKeyCount (CandleModel.create [candleA] candleA2) (candleKey candleA2)
          = candleKeyCount [candleA] (candleKey candleA2))
    ∧ candleKeyCount ([candleA, candleA2, candleB].foldl CandleModel.create [])
        (candleKey candleA2) ≤ 1 :=
  ⟨⟨by decide,
    ((candle_create_last_write_wins [candleA] candleA2).1 (by decide)).1⟩,
   (candle_create_last_write_wins [] candleA2).2
     (fun _ => by simp [candleKeyCount]) [candleA, candleA2, candleB]
     (candleKey candleA2)⟩

/-- C4: after any number of `TrendModel.upsert` writes starting from an
empty store, exactly one row exists per (symbol, timeframe, reliability)
combination ever written; and a colliding write overwrites direction and
timestamp of the existing row without changing the row count for that
combination. -/
theorem trend_upsert_one_row_per_combination :
    ∀ (writes : List TrendWrite) (store : List TrendRow) (s : String)
      (tf : Timeframe) (d : Direction) (rel : Reliability) (ts : Int),
      (∀ w ∈ writes,
        trendKeyCount (writes.foldl applyTrendWrite []) (trendWriteKey w) = 1)
      ∧ (1 ≤ trendKeyCount store (s, tf, rel) →
          trendKeyCount (TrendModel.upsert store s tf d rel ts) (s, tf, rel)
              = trendKeyCount store (s, tf, rel)
            ∧ ∀ r ∈ (TrendModel.upsert store s tf d rel ts).filter
                (trendKeyMatch (s, tf, rel)),
                r.trend = d ∧ r.timestamp = ts) := by
  intro writes store s tf d rel ts
  constructor
  · intro w hw
    obtain ⟨l1, l2, rfl⟩ := List.append_of_mem hw
    have hle : trendKeyCount ((l1 ++ w :: l2).foldl applyTrendWrite []) (trendWriteKey w) ≤ 1 := by
      refine trend_unique_foldl (l1 ++ w :: l2) [] ?_ (trendWriteKey w)
      intro k
      simp [trendKeyCount]
    have hge : 1 ≤ trendKeyCount ((l1 ++ w :: l2).foldl applyTrendWrite []) (trendWriteKey w) := by
      rw [List.foldl_append, List.foldl_cons]
      refine Nat.le_trans ?_ (trendKeyCount_foldl_ge l2 _ (trendWriteKey w))
      exact trendKeyCount_upsert_self (l1.foldl applyTrendWrite []) w.symbol
        w.timeframe w.trend w.reliability w.timestamp
    exact Nat.le_antisymm hle hge
  · intro hpos
    have hany : store.any (trendKeyMatch (s, tf, rel)) = true :=
      (trend_any_iff_count_pos store (s, tf, rel)).mpr hpos
    exact ⟨trendKeyCount_upsert_exists store s tf d rel ts hany (s, tf, rel),
      trend_upsert_fields store s tf d rel ts⟩

/-- Witness for C4: two colliding writes and one distinct write from the
empty store leave exactly one row per written combination, and the
colliding write overwrote direction and timestamp. -/
theorem trend_upsert_one_row_per_combination_witness :
    trendKeyCount ([trendW1, trendW2].foldl applyTrendWrite []) (trendWriteKey trendW2) = 1
    ∧ trendKeyCount
        (TrendModel.upsert (applyTrendWrite [] trendW1) "AAPL" .m1 .down .low 120)
        ("AAPL", .m1, .low)
        = trendKeyCount (applyTrendWrite [] trendW1) ("AAPL", .m1, .low) :=
  ⟨(trend_upsert_one_row_per_combination [trendW1, trendW2] [] "AAPL" .m1 .down .low 120).1
      trendW2 (by decide),
   ((trend_upsert_one_row_per_combination [] (applyTrendWrite [] trendW1) "AAPL" .m1 .down .low 120).2
      (by decide)).1⟩

/-! Poller trace lemmas. -/

/-- Every timeframe iteration issues its provider fetch, whatever the
outcome. -/
theorem providerFetch_mem (env : PollEnv) (s : String) (st : PollState)
    (tf : Timeframe) :
    Effect.providerFetch s tf ∈ (PollingService.processTimeframe env s st tf).2 := by
  unfold PollingService.processTimeframe
  cases hf : env.fetchResult s tf with
  | error e => simp
  | ok candles =>
    cases candles with
    | nil => simp
    | cons c cs =>
      by_cases hp : env.candlePersistOk s tf = true
      · simp [hp]
      · simp [hp]

/-- `broadcastCandle` emits no trend-service calls. -/
theorem broadcastCandle_no_trendCall (io : Bool) (s : String) (tf : Timeframe)
    (c : Candle) :
    (PollingService.broadcastCandle io s tf c).filter isTrendCall = [] := by
  cases io <;> simp [PollingService.broadcastCandle, isTrendCall]

/-- `broadcastTrend` emits no candle updates. -/
theorem broadcastTrend_no_candleUpdate (io : Bool) (s : String) (tf : Timeframe)
    (d : Direction) :
    (PollingService.broadcastTrend io s tf d).filter isCandleUpdate = [] := by
  cases io <;> simp [PollingService.broadcastTrend, isCandleUpdate]

/-- The trend step emits no candle updates. -/
theorem calc_trace_no_candleUpdate (env : PollEnv) (s : String) (tf : Timeframe)
    (candles : List Candle) (st : PollState) :
    ((PollingService.calculateAndStoreTrend env s tf candles st).2).filter isCandleUpdate = [] := by
  unfold PollingService.calculateAndStoreTrend
  by_cases h : candles.length < 20
  · simp [h]
  · cases ht : env.trendResult s tf candles with
    | error e => simp [h, ht, isCandleUpdate]
    | ok td =>
      by_cases hp : env.trendPersistOk s tf = true
      · simp [h, ht, hp, isCandleUpdate, broadcastTrend_no_candleUpdate]
      · simp [h, ht, hp, isCandleUpdate]

/-- After an open rate-limit gate, the symbol's stamp reads `now`. -/
theorem fetch_stamp_of_gate_open (env : PollEnv) (now : Int) (s : String)
    (st : PollState)
    (h : ¬ (now - (st.lastFetchTime.lookup s).getD 0 < PollingService.MIN_FETCH_INTERVAL)) :
    (PollingService.fetchSymbolData env now s st).1.lastFetchTime.lookup s = some now := by
  unfold PollingService.fetchSymbolData
  rw [if_neg h]
  simp [List.lookup]

/-- After an open rate-limit gate, the first timeframe's provider fetch
is issued. -/
theorem mem_fetch_trace (env : PollEnv) (now : Int) (s : String) (st : PollState)
    (h : ¬ (now - (st.lastFetchTime.lookup s).getD 0 < PollingService.MIN_FETCH_INTERVAL)) :
    Effect.providerFetch s .m1 ∈ (PollingService.fetchSymbolData env now s st).2 := by
  unfold PollingService.fetchSymbolData
  rw [if_neg h]
  show Effect.providerFetch s .m1
    ∈ (PollingService.runTimeframes env s st PollingService.pollTimeframes).2
  rw [show PollingService.pollTimeframes
        = Timeframe.m1 :: [Timeframe.m5, Timeframe.m15, Timeframe.h1, Timeframe.d1] from rfl]
  simp only [PollingService.runTimeframes]
  exact List.mem_append_left _ (providerFetch_mem env s st .m1)

/-- A one-symbol watchlist with an open gate issues that symbol's first
provider fetch inside `pollMarketData`. -/
theorem mem_poll_trace (env : PollEnv) (now : Int) (st : PollState) (s : String)
    (hw : env.watchlist = [s])
    (h : ¬ (now - (st.lastFetchTime.lookup s).getD 0 < PollingService.MIN_FETCH_INTERVAL)) :
    Effect.providerFetch s .m1 ∈ (PollingService.pollMarketData env now st).2 := by
  unfold PollingService.pollMarketData
  rw [hw]
  rw [if_neg (by simp)]
  simp only [List.foldl_cons, List.foldl_nil, List.nil_append]
  exact mem_fetch_trace env now s st h

/-- C1 counterexample: with a poll cycle in flight (`isPolling = true`), a
tick trigger is a no-op, but `triggerPoll` still runs a full cycle and
issues the five provider fetches — the manual trigger does not obey the
overlap rule the claim states. -/
theorem trigger_poll_ignores_overlap_guard :
    stPolling.isPolling = true
    ∧ (PollingService.tickFire envEmptyData 6000 stPolling).2 = []
    ∧ (PollingService.tickFire envEmptyData 6000 stPolling).1 = stPolling
    ∧ (PollingService.triggerPoll envEmptyData 6000 stPolling).2
        = [Effect.providerFetch "AAPL" .m1, .providerFetch "AAPL" .m5,
           .providerFetch "AAPL" .m15, .providerFetch "AAPL" .h1,
           .providerFetch "AAPL" .d1] :=
  ⟨rfl, rfl, rfl, by decide⟩

/-- C1 as amended: a tick that fires while a cycle is in flight is
dropped (no effects, state untouched), whereas `triggerPoll` neither
checks nor sets the overlap flag and runs a full poll cycle
unconditionally — here issuing a provider fetch while `isPolling` holds. -/
theorem tick_dropped_but_trigger_poll_runs :
    ∀ (env : PollEnv) (now : Int) (st : PollState) (s : String),
      st.isPolling = true →
      env.watchlist = [s] →
      ¬ (now - (st.lastFetchTime.lookup s).getD 0 < 5000) →
      PollingService.tickFire env now st = (st, [])
      ∧ Effect.providerFetch s .m1 ∈ (PollingService.triggerPoll env now st).2 := by
  intro env now st s hp hw hg
  constructor
  · unfold PollingService.tickFire
    rw [if_pos hp]
  · exact mem_poll_trace env now st s hw hg

/-- Witness for the amended C1 at a concrete in-flight state. -/
theorem tick_dropped_but_trigger_poll_runs_witness :
    PollingService.tickFire envEmptyData 6000 stPolling = (stPolling, [])
    ∧ Effect.providerFetch "AAPL" .m1
        ∈ (PollingService.triggerPoll envEmptyData 6000 stPolling).2 :=
  tick_dropped_but_trigger_poll_runs envEmptyData 6000 stPolling "AAPL" rfl rfl
    (by decide)

/-- C2: a symbol whose recorded last-fetch stamp is less than 5000 ms old
is skipped entirely: `fetchSymbolData` returns with unchanged state (no
provider call, no persistence, no event) and without error. -/
theorem rate_limited_symbol_is_skipped :
    ∀ (env : PollEnv) (now : Int) (s : String) (st : PollState) (t : Int),
      st.lastFetchTime.lookup s = some t →
      now - t < 5000 →
      PollingService.fetchSymbolData env now s st = (st, []) := by
  intro env now s st t hl hlt
  unfold PollingService.fetchSymbolData
  rw [hl]
  simp only [Option.getD_some]
  rw [if_pos (show now - t < PollingService.MIN_FETCH_INTERVAL from hlt)]

/-- Witness for C2: a symbol stamped 3900 ms ago is skipped. -/
theorem rate_limited_symbol_is_skipped_witness :
    stRecent.lastFetchTime.lookup "AAPL" = some 100
    ∧ (4000 : Int) - 100 < 5000
    ∧ PollingService.fetchSymbolData envEmptyData 4000 "AAPL" stRecent
        = (stRecent, []) :=
  ⟨by decide, by decide,
   rate_limited_symbol_is_skipped envEmptyData 4000 "AAPL" stRecent 100
     (by decide) (by decide)⟩

/-- C9: once the gate is open, the symbol's last-fetch stamp is set to
`now` whatever the per-timeframe outcomes — the environment (provider,
persistence, trend service) is fully arbitrary here. -/
theorem stamp_recorded_despite_failures :
    ∀ (env : PollEnv) (now : Int) (s : String) (st : PollState),
      ¬ (now - (st.lastFetchTime.lookup s).getD 0 < 5000) →
      (PollingService.fetchSymbolData env now s st).1.lastFetchTime.lookup s
        = some now :=
  fun env now s st h => fetch_stamp_of_gate_open env now s st h

/-- Witness for C9 where every fetch throws and every persistence fails:
the trace shows the five failed attempts and the stamp still reads 6000. -/
theorem stamp_recorded_despite_failures_witness :
    (PollingService.fetchSymbolData envAllFail 6000 "AAPL" stIdle).1.lastFetchTime.lookup "AAPL"
        = some 6000
    ∧ (PollingService.fetchSymbolData envAllFail 6000 "AAPL" stIdle).2
        = [Effect.providerFetch "AAPL" .m1, .providerFetch "AAPL" .m5,
           .providerFetch "AAPL" .m15, .providerFetch "AAPL" .h1,
           .providerFetch "AAPL" .d1] :=
  ⟨stamp_recorded_despite_failures envAllFail 6000 "AAPL" stIdle (by decide),
   by decide⟩

/-- C10: a symbol with no recorded stamp is treated as last fetched at
the epoch (`lastFetchTime.get(symbol) || 0`), so whenever `now` is at
least 5000 ms past the epoch the first-ever fetch is never skipped: the
first timeframe's provider fetch is issued and the stamp is recorded. -/
theorem first_fetch_treated_as_epoch :
    ∀ (env : PollEnv) (now : Int) (s : String) (st : PollState),
      st.lastFetchTime.lookup s = none →
      (5000 : Int) ≤ now →
      Effect.providerFetch s .m1 ∈ (PollingService.fetchSymbolData env now s st).2
      ∧ (PollingService.fetchSymbolData env now s st).1.lastFetchTime.lookup s
          = some now := by
  intro env now s st hn hge
  have hg : ¬ (now - (st.lastFetchTime.lookup s).getD 0
      < PollingService.MIN_FETCH_INTERVAL) := by
    rw [hn]
    simp only [Option.getD_none]
    unfold PollingService.MIN_FETCH_INTERVAL
    omega
  exact ⟨mem_fetch_trace env now s st hg, fetch_stamp_of_gate_open env now s st hg⟩

/-- Witness for C10 on an empty stamp map at `now = 6000`. -/
theorem first_fetch_treated_as_epoch_witness :
    Effect.providerFetch "AAPL" .m1
        ∈ (PollingService.fetchSymbolData envEmptyData 6000 "AAPL" stIdle).2
    ∧ (PollingService.fetchSymbolData envEmptyData 6000 "AAPL" stIdle).1.lastFetchTime.lookup "AAPL"
        = some 6000 :=
  first_fetch_treated_as_epoch envEmptyData 6000 "AAPL" stIdle rfl (by decide)

/-- C5: in a poll-cycle timeframe iteration whose fetch succeeded and
whose candle persisted, a series of at least 20 candles makes the trend
calculator run with reliability low, the resulting record reach the
trend store via upsert, and a global trend-update event go out; a series
below 20 (such as 18) triggers no trend-service call and leaves the
trend store untouched. -/
theorem trend_step_twenty_candle_threshold :
    ∀ (env : PollEnv) (s : String) (tf : Timeframe) (candles : List Candle)
      (st : PollState) (td : TrendData),
      env.fetchResult s tf = .ok candles →
      env.candlePersistOk s tf = true →
      ((20 ≤ candles.length →
          env.trendResult s tf candles = .ok td →
          env.trendPersistOk s tf = true →
          env.ioInit = true →
          Effect.trendServiceCall s tf .low
              ∈ (PollingService.processTimeframe env s st tf).2
          ∧ (PollingService.processTimeframe env s st tf).1.trends
              = TrendModel.upsert st.trends s tf td.trend .low td.timestamp
          ∧ Effect.trendUpdate .global s tf td.trend
              ∈ (PollingService.processTimeframe env s st tf).2)
       ∧ (candles.length < 20 →
          (PollingService.processTimeframe env s st tf).2.filter isTrendCall = []
          ∧ (PollingService.processTimeframe env s st tf).1.trends = st.trends)) := by
  intro env s tf candles st td hf hp
  constructor
  · intro h20 htr hpers hio
    cases candles with
    | nil => simp at h20
    | cons c cs =>
      have h20' : ¬ (cs.length + 1 < 20) := by
        simp only [List.length_cons] at h20
        omega
      unfold PollingService.processTimeframe PollingService.calculateAndStoreTrend
      rw [hf]
      simp [hp, h20', htr, hpers, hio, PollingService.broadcastTrend]
  · intro hlt
    cases candles with
    | nil =>
      unfold PollingService.processTimeframe
      rw [hf]
      exact ⟨by simp [isTrendCall], rfl⟩
    | cons c cs =>
      unfold PollingService.processTimeframe
      rw [hf]
      simp only [hp, if_true]
      unfold PollingService.calculateAndStoreTrend
      rw [if_pos hlt]
      constructor
      · simp [List.filter_append, broadcastCandle_no_trendCall, isTrendCall]
      · rfl

/-- Witness for C5: a 20-candle series triggers the trend step, an
18-candle series does not. -/
theorem trend_step_twenty_candle_threshold_witness :
    (Effect.trendServiceCall "AAPL" .m1 .low
        ∈ (PollingService.processTimeframe envSeries20 "AAPL" stIdle .m1).2
      ∧ (PollingService.processTimeframe envSeries20 "AAPL" stIdle .m1).1.trends
          = TrendModel.upsert stIdle.trends "AAPL" .m1 .up .low 42
      ∧ Effect.trendUpdate .global "AAPL" .m1 .up
          ∈ (PollingService.processTimeframe envSeries20 "AAPL" stIdle .m1).2)
    ∧ ((PollingService.processTimeframe envSeries18 "AAPL" stIdle .m1).2.filter isTrendCall = []
      ∧ (PollingService.processTimeframe envSeries18 "AAPL" stIdle .m1).1.trends
          = stIdle.trends) :=
  ⟨(trend_step_twenty_candle_threshold envSeries20 "AAPL" .m1 series20 stIdle
      { trend := .up, timestamp := 42 } rfl rfl).1 (by decide) rfl rfl rfl,
   (trend_step_twenty_candle_threshold envSeries18 "AAPL" .m1 series18 stIdle
      { trend := .up, timestamp := 42 } rfl rfl).2 (by decide)⟩

/-- C8: with Socket.IO initialized, the candle-update events of one
timeframe iteration are either absent (no candle persisted) or exactly a
pair with the same payload: one on the global channel and one on the
symbol's broadcast room. -/
theorem candle_update_dual_channel :
    ∀ (env : PollEnv) (s : String) (tf : Timeframe) (st : PollState),
      env.ioInit = true →
      (PollingService.processTimeframe env s st tf).2.filter isCandleUpdate = []
      ∨ ∃ c : Candle,
          (PollingService.processTimeframe env s st tf).2.filter isCandleUpdate
            = [Effect.candleUpdate .global s tf c,
               Effect.candleUpdate (.room ("symbol:" ++ s)) s tf c] := by
  intro env s tf st hio
  unfold PollingService.processTimeframe
  cases hf : env.fetchResult s tf with
  | error e => left; simp [isCandleUpdate]
  | ok candles =>
    cases candles with
    | nil => left; simp [isCandleUpdate]
    | cons c cs =>
      by_cases hp : env.candlePersistOk s tf = true
      · right
        refine ⟨(c :: cs).getLast (List.cons_ne_nil c cs), ?_⟩
        simp [hp, PollingService.broadcastCandle, hio, isCandleUpdate,
          List.filter_append, calc_trace_no_candleUpdate]
      · left; simp [hp, isCandleUpdate]

/-- Witness for C8: the concrete 20-candle environment produces exactly
the global and room-scoped pair with identical payload. -/
theorem candle_update_dual_channel_witness :
    (PollingService.processTimeframe envSeries20 "AAPL" stIdle .m1).2.filter isCandleUpdate
      = [Effect.candleUpdate .global "AAPL" .m1 candleA,
         Effect.candleUpdate (.room "symbol:AAPL") "AAPL" .m1 candleA] := by
  rcases candle_update_dual_channel envSeries20 "AAPL" .m1 stIdle rfl with h | ⟨c, hc⟩
  · exact absurd h (by decide)
  · exact (by decide :
      (PollingService.processTimeframe envSeries20 "AAPL" stIdle .m1).2.filter isCandleUpdate
        = [Effect.candleUpdate .global "AAPL" .m1 candleA,
           Effect.candleUpdate (.room "symbol:AAPL") "AAPL" .m1 candleA])

/-- C6 counterexample: an unsubscribe whose payload carries no symbol
list does NOT produce an error event — it answers with a normal
`unsubscribed` confirmation (while leaving the set unchanged), refuting
the claim that both handlers answer malformed payloads with an error
event. -/
theorem unsubscribe_missing_list_no_error :
    hasError (WebSocketService.handleUnsubscribe ["AAPL"] emptyPayload).2 = false
    ∧ (WebSocketService.handleUnsubscribe ["AAPL"] emptyPayload).2
        = [WsEmission.unsubscribed [] ["AAPL"]]
    ∧ (WebSocketService.handleUnsubscribe ["AAPL"] emptyPayload).1 = ["AAPL"] :=
  ⟨by decide, by decide, by decide⟩

/-- C6 as amended: on a payload with no symbol list, subscribe answers
with an error event and changes nothing, while unsubscribe raises no
error (and no exception — both handlers are total) and also changes
nothing, answering instead with a normal `unsubscribed` confirmation
carrying the unchanged set. -/
theorem malformed_payload_handling :
    ∀ (subs : List String) (data : WsPayload),
      extractSymbols data = [] →
      WebSocketService.handleSubscribe subs data
          = (subs, [.errorMsg "No symbols provided"])
      ∧ (WebSocketService.handleUnsubscribe subs data).1 = subs
      ∧ (WebSocketService.handleUnsubscribe subs data).2
          = [.unsubscribed [] subs]
      ∧ hasError (WebSocketService.handleUnsubscribe subs data).2 = false := by
  intro subs data h
  unfold WebSocketService.handleSubscribe WebSocketService.handleUnsubscribe
  rw [h]
  simp [hasError]

/-- Witness for the amended C6 at the concrete malformed payload. -/
theorem malformed_payload_handling_witness :
    WebSocketService.handleSubscribe ["AAPL"] emptyPayload
        = (["AAPL"], [WsEmission.errorMsg "No symbols provided"])
    ∧ (WebSocketService.handleUnsubscribe ["AAPL"] emptyPayload).1 = ["AAPL"]
    ∧ (WebSocketService.handleUnsubscribe ["AAPL"] emptyPayload).2
        = [WsEmission.unsubscribed [] ["AAPL"]]
    ∧ hasError (WebSocketService.handleUnsubscribe ["AAPL"] emptyPayload).2 = false :=
  malformed_payload_handling ["AAPL"] emptyPayload rfl

/-- C7: symbol normalization in the price-source adapter.  "USDJPY" is
called on the provider as "USDJPY=X" while the candles built from the
response carry "USDJPY"; "AAPL" passes through unchanged; in general an
already-suffixed symbol passes through uppercased (keeping its suffix),
a detected currency pair gains the "=X" suffix, and every other symbol
is merely uppercased. -/
theorem symbol_normalization :
    normalizeSymbolForYahoo "USDJPY" = "USDJPY=X"
    ∧ normalizeSymbolForYahoo "AAPL" = "AAPL"
    ∧ (∀ (tf : Timeframe) (bars : List ProviderBar),
        ∀ c ∈ YahooFinanceService.getHistoricalCandles "USDJPY" tf bars,
          c.symbol = "USDJPY")
    ∧ (∀ s, strEndsWith s "=X" = true →
        normalizeSymbolForYahoo s = strUpper s)
    ∧ (∀ s, strEndsWith s "=X" = false → isLikelyForexPair s = true →
        normalizeSymbolForYahoo s = strUpper s ++ "=X")
    ∧ (∀ s, isLikelyForexPair s = false →
        normalizeSymbolForYahoo s = strUpper s) := by
  refine ⟨by decide, by decide, ?_, ?_, ?_, ?_⟩
  · intro tf bars c hc
    unfold YahooFinanceService.getHistoricalCandles at hc
    obtain ⟨b, hb, hfb⟩ := List.mem_filterMap.mp hc
    obtain ⟨ts, o, hi, lo, cl, vol⟩ := b
    cases o <;> cases hi <;> cases lo <;> cases cl <;> simp at hfb
    rw [← hfb]
    exact (by decide : strUpper (getDisplaySymbol "USDJPY") = "USDJPY")
  · intro s h
    unfold normalizeSymbolForYahoo
    rw [if_pos h]
  · intro s h1 h2
    unfold normalizeSymbolForYahoo
    rw [if_neg (by simp [h1]), if_pos h2]
  · intro s h
    unfold normalizeSymbolForYahoo
    cases hh : strEndsWith s "=X" with
    | false => rw [if_neg (by simp [hh]), if_neg (by simp [h])]
    | true =>
      exfalso
      unfold isLikelyForexPair at h
      rw [if_pos hh] at h
      simp at h

/-- Witness for C7: a concrete bar for "USDJPY" maps to a stored candle
carrying "USDJPY", an already-suffixed pair passes through, a lowercase
pair gains the suffix, and a stock ticker is only uppercased. -/
theorem symbol_normalization_witness :
    candleFromBarFull
        ∈ YahooFinanceService.getHistoricalCandles "USDJPY" .m1 [barFull]
    ∧ candleFromBarFull.symbol = "USDJPY"
    ∧ normalizeSymbolForYahoo "EURUSD=X" = strUpper "EURUSD=X"
    ∧ normalizeSymbolForYahoo "usdjpy" = strUpper "usdjpy" ++ "=X"
    ∧ normalizeSymbolForYahoo "TSLA" = strUpper "TSLA" :=
  ⟨by decide,
   symbol_normalization.2.2.1 .m1 [barFull] candleFromBarFull (by decide),
   symbol_normalization.2.2.2.1 "EURUSD=X" (by decide),
   symbol_normalization.2.2.2.2.1 "usdjpy" (by decide) (by decide),
   symbol_normalization.2.2.2.2.2 "TSLA" (by decide)⟩

end Trade
